import Mathlib

/-!
Verification development for the just-kick location-aware bucket-list
tracker.  The definitions below are a shallow embedding of the core
subsystems of the application: the Haversine distance engine
(src/utils/geoUtils.ts), the proximity evaluator and location sampler
(src/App.tsx), and the dual-backend item stores (src/services/db.ts,
src/services/cloudService.ts).  Coordinates are modelled as real numbers;
machine timestamps as naturals; the browser geolocation service, the
notification display, and caller-supplied ids/timestamps are modelled as
explicit oracles passed to the embedded functions.
-/

namespace JustKick

/-- Coordinate pair, from `GeoLocation` in src/types.ts. -/
structure GeoLocation where
  lat : ℝ
  lng : ℝ

/-- Math.atan2 of the JS runtime, modelled as the argument of the complex
number with real part `x` and imaginary part `y` (both have range
(-pi, pi] and agree on all quadrants, including atan2 0 0 = 0). -/
noncomputable def atan2 (y x : ℝ) : ℝ := Complex.arg (Complex.mk x y)

/-- Haversine great-circle distance in meters, from `calculateDistance` in
src/utils/geoUtils.ts. -/
noncomputable def calculateDistance (loc1 loc2 : GeoLocation) : ℝ :=
  let R : ℝ := 6371e3
  let phi1 := loc1.lat * Real.pi / 180
  let phi2 := loc2.lat * Real.pi / 180
  let dphi := (loc2.lat - loc1.lat) * Real.pi / 180
  let dlam := (loc2.lng - loc1.lng) * Real.pi / 180
  let a := Real.sin (dphi / 2) * Real.sin (dphi / 2) +
    Real.cos phi1 * Real.cos phi2 * Real.sin (dlam / 2) * Real.sin (dlam / 2)
  let c := 2 * atan2 (Real.sqrt a) (Real.sqrt (1 - a))
  R * c

/-- Central entity, from `BucketItem` in src/types.ts.  Timestamps are
naturals; the optional JS fields are `Option`s. -/
structure BucketItem where
  id : String
  title : String
  description : Option String
  targetLocation : GeoLocation
  completed : Bool
  completedAt : Option Nat
  notified : Bool
  category : String
  interest : String
  createdAt : Nat
  userId : Option String

/-- Proximity threshold in meters to trigger notification, from
`PROXIMITY_THRESHOLD` in src/App.tsx. -/
def PROXIMITY_THRESHOLD : ℝ := 2000

/-- Per-item body of the `prevItems.map` callback inside `checkProximity`
(src/App.tsx).  The second component records the `sendNotification(item)`
invocation (carrying the item title) made in the latch branch; `none`
means the item passed through unchanged with no alert. -/
noncomputable def checkProximityItem (currentLoc : GeoLocation) (item : BucketItem) :
    BucketItem × Option String :=
  if item.completed || item.notified then (item, none)
  else if calculateDistance currentLoc item.targetLocation < PROXIMITY_THRESHOLD then
    ({ item with notified := true }, some item.title)
  else (item, none)

/-- The `checkProximity` state update of src/App.tsx: maps every item
through the latch logic; if nothing changed it returns the previous array
unchanged (the `hasChanges ? newItems : prevItems` optimization).  The
second component is the queue of alerts fired during the pass, one per
latched item, each carrying that item title. -/
noncomputable def checkProximity (currentLoc : GeoLocation) (prevItems : List BucketItem) :
    List BucketItem × List String :=
  let mapped := prevItems.map (checkProximityItem currentLoc)
  let hasChanges := mapped.any (fun r => r.2.isSome)
  (if hasChanges then mapped.map Prod.fst else prevItems, mapped.filterMap Prod.snd)

/-- Boolean form of the latch condition of `checkProximity`: not completed,
not yet notified, and strictly inside the proximity threshold. -/
noncomputable def qualifiesForAlert (loc : GeoLocation) (item : BucketItem) : Bool :=
  !item.completed && !item.notified &&
    decide (calculateDistance loc item.targetLocation < PROXIMITY_THRESHOLD)

/-- Body text of the proximity notification built by `sendNotification`
(src/App.tsx) for a given item title. -/
def notificationBody (title : String) : String :=
  "You are near \"" ++ title ++ "\". Time to check it off your bucket list!"

/-- Geolocation request options, from the option objects passed to
`navigator.geolocation.getCurrentPosition` in src/App.tsx.  `maximumAge`
is either a bounded cache age in milliseconds or `Infinity`. -/
inductive MaximumAge where
  | bounded (ms : Nat)
  | unbounded
deriving DecidableEq

structure LocOptions where
  enableHighAccuracy : Bool
  timeout : Nat
  maximumAge : MaximumAge
deriving DecidableEq

/-- Options of attempt 1 in `updateLocation`: high accuracy, 30 s timeout,
60 s cache age. -/
def highAccuracyOptions : LocOptions :=
  { enableHighAccuracy := true, timeout := 30000, maximumAge := MaximumAge.bounded 60000 }

/-- Options of the fallback attempt in `handleError`: low accuracy, 30 s
timeout, unbounded (`Infinity`) cache age. -/
def lowAccuracyOptions : LocOptions :=
  { enableHighAccuracy := false, timeout := 30000, maximumAge := MaximumAge.unbounded }

/-- Outcome of one `getCurrentPosition` request: a position fix, or a
`GeolocationPositionError` carrying its numeric `code` (1 permission
denied, 2 position unavailable, 3 timeout). -/
inductive GeoResult where
  | success (pos : GeoLocation)
  | failure (code : Nat)

/-- The application state touched by the core subsystems, from the React
state hooks of src/App.tsx.  `alerts` logs the titles passed to
`sendNotification`; `displayed` logs the bodies of notifications whose
`new Notification(...)` constructor ran without throwing. -/
structure AppState where
  items : List BucketItem
  currentLocation : Option GeoLocation
  geoError : Option String
  isTracking : Bool
  permissionGranted : Bool
  editingItem : Option BucketItem
  alerts : List String
  displayed : List String

/-- One proximity evaluation applied at state level: `setItems` with the
`checkProximity` result, plus the `sendNotification` side effects fired
during the map.  `dispatchOk` is the oracle deciding whether the
`new Notification` constructor succeeds for a given title; per
`sendNotification` the display is attempted only when the permission
gate is granted, and a throwing constructor is caught and ignored. -/
noncomputable def evaluateStep (dispatchOk : String → Bool) (loc : GeoLocation)
    (s : AppState) : AppState :=
  let res := checkProximity loc s.items
  { s with
    items := res.1
    alerts := s.alerts ++ res.2
    displayed := s.displayed ++ res.2.filterMap (fun t =>
      if s.permissionGranted && dispatchOk t then some (notificationBody t) else none) }

/-- The `handleSuccess` callback of `updateLocation` (src/App.tsx): clears
the geo-error slot, stores the new fix as the current location, and
invokes `checkProximity` synchronously with it.  It reads no tracking
flag, so it applies in full even if tracking was stopped while the
request was in flight. -/
noncomputable def handleSuccess (dispatchOk : String → Bool) (pos : GeoLocation)
    (s : AppState) : AppState :=
  evaluateStep dispatchOk pos { s with geoError := none, currentLocation := some pos }

/-- Error message chosen by the `switch` in `handleError` (src/App.tsx). -/
def errorMessage (code : Nat) : String :=
  if code = 1 then "Location permission denied. Please enable it in your browser settings."
  else if code = 2 then "Location information is unavailable."
  else if code = 3 then "Location request timed out. Please check your signal or move to an open area."
  else "Unable to retrieve location."

/-- The error-surfacing tail of `handleError`: code 1 additionally turns
tracking off (`setIsTracking(false)`), then the message is written to the
single dismissible geo-error slot (`setGeoError(msg)`). -/
def surfaceGeoError (code : Nat) (s : AppState) : AppState :=
  { s with
    isTracking := if code = 1 then false else s.isTracking
    geoError := some (errorMessage code) }

/-- The `handleError` callback of `updateLocation` (src/App.tsx).  `geo`
is the geolocation collaborator, mapping request options to the outcome
of that request.  On a timeout (code 3) of the high-accuracy attempt it
issues exactly one low-accuracy request and returns; the recursive call
for that request runs with `isLowAccuracy = true`, so it can only surface.
The second component is the list of requests issued by this handler. -/
noncomputable def handleError (dispatchOk : String → Bool) (geo : LocOptions → GeoResult)
    (code : Nat) (isLowAccuracy : Bool) (s : AppState) : AppState × List LocOptions :=
  if h : code = 3 ∧ isLowAccuracy = false then
    match geo lowAccuracyOptions with
    | GeoResult.success pos => (handleSuccess dispatchOk pos s, [lowAccuracyOptions])
    | GeoResult.failure c =>
      let r := handleError dispatchOk geo c true s
      (r.1, lowAccuracyOptions :: r.2)
  else (surfaceGeoError code s, [])
termination_by (if isLowAccuracy then 0 else 1)
decreasing_by simp [h.2]

/-- One sample attempt, from `updateLocation` (src/App.tsx): issue the
high-accuracy request and dispatch its outcome to `handleSuccess` or
`handleError`.  The second component is the list of requests issued
during the attempt.  (The `!navigator.geolocation` support guard is
outside the model: the collaborator `geo` is assumed present.) -/
noncomputable def updateLocation (dispatchOk : String → Bool) (geo : LocOptions → GeoResult)
    (s : AppState) : AppState × List LocOptions :=
  match geo highAccuracyOptions with
  | GeoResult.success pos => (handleSuccess dispatchOk pos s, [highAccuracyOptions])
  | GeoResult.failure code =>
    let r := handleError dispatchOk geo code false s
    (r.1, highAccuracyOptions :: r.2)

/-- One tick of the polling effect of src/App.tsx: the interval exists
only while `isTracking` is true (the effect cleanup clears it on stop),
so a tick in the stopped state runs nothing and issues no requests. -/
noncomputable def pollTick (dispatchOk : String → Bool) (geo : LocOptions → GeoResult)
    (s : AppState) : AppState × List LocOptions :=
  if s.isTracking then updateLocation dispatchOk geo s else (s, [])

/-- Dismissing the error banner (`setGeoError(null)` in src/App.tsx). -/
def dismissGeoError (s : AppState) : AppState := { s with geoError := none }

/-- User-level and sampler-level events of the app, covering the local
(signed-out) code paths of src/App.tsx.  `saveNew` carries the id and
timestamp oracles (`crypto.randomUUID()`, `Date.now()`);
`locationResolved` is a successful sample request resolving (the
`handleSuccess` path). -/
inductive AppEvent where
  | saveNew (newId : String) (title category interest : String) (loc : GeoLocation)
      (descr : Option String) (now : Nat)
  | initiateEdit (id : String)
  | saveEdit (title category interest : String) (loc : GeoLocation) (descr : Option String)
  | toggleComplete (id : String) (now : Nat)
  | deleteItem (id : String)
  | evaluate (loc : GeoLocation)

/-- Local-mode in-memory semantics of the handlers of src/App.tsx:
`handleSaveItem` (both branches), `initiateEdit`, `toggleComplete`,
`deleteItem`, and a `checkProximity` invocation.  `saveEdit` builds the
updated item by spreading the captured `editingItem`, exactly as
`handleSaveItem` does. -/
noncomputable def applyEvent (dispatchOk : String → Bool) (s : AppState) :
    AppEvent → AppState
  | AppEvent.saveNew newId title category interest loc descr now =>
    let newItem : BucketItem :=
      { id := newId, title := title, category := category, interest := interest,
        targetLocation := loc, description := descr, completed := false,
        completedAt := none, notified := false, createdAt := now, userId := none }
    { s with items := newItem :: s.items }
  | AppEvent.initiateEdit id =>
    { s with editingItem := s.items.find? (fun i => i.id = id) }
  | AppEvent.saveEdit title category interest loc descr =>
    match s.editingItem with
    | some editing =>
      let updatedItem :=
        { editing with
          title := title, category := category, interest := interest,
          targetLocation := loc, description := descr }
      { s with
        items := s.items.map (fun item => if item.id = editing.id then updatedItem else item)
        editingItem := none }
    | none => s
  | AppEvent.toggleComplete id now =>
    match s.items.find? (fun i => i.id = id) with
    | none => s
    | some item =>
      let completed := !item.completed
      let updatedItem :=
        { item with
          completed := completed,
          completedAt := if completed then some now else none }
      { s with items := s.items.map (fun i => if i.id = id then updatedItem else i) }
  | AppEvent.deleteItem id =>
    { s with items := s.items.filter (fun item => item.id ≠ id) }
  | AppEvent.evaluate loc => evaluateStep dispatchOk loc s

/-- Folds a sequence of events over a starting state. -/
noncomputable def applyEvents (dispatchOk : String → Bool) (s : AppState)
    (events : List AppEvent) : AppState :=
  events.foldl (applyEvent dispatchOk) s

/-- Write to a table keyed by item id: replace the row with that id if one
exists, otherwise append.  This models both an IndexedDB
`store.put(item)` against the keyPath-id object store of
src/services/db.ts and a Firestore `setDoc(doc(db, _, item.id), item)`. -/
def tablePut (store : List BucketItem) (item : BucketItem) : List BucketItem :=
  if store.any (fun it => it.id = item.id) then
    store.map (fun it => if it.id = item.id then item else it)
  else store ++ [item]

/-- Delete from a table keyed by item id; deleting an absent id is a
no-op, as for IndexedDB `store.delete(id)` and Firestore `deleteDoc`. -/
def tableDelete (store : List BucketItem) (id : String) : List BucketItem :=
  store.filter (fun it => it.id ≠ id)

/-- LocalDatabase.saveItem of src/services/db.ts: an IndexedDB `put`
(upsert by the keyPath id). -/
def localSaveItem (store : List BucketItem) (item : BucketItem) : List BucketItem :=
  tablePut store item

/-- LocalDatabase.deleteItem of src/services/db.ts. -/
def localDeleteItem (store : List BucketItem) (id : String) : List BucketItem :=
  tableDelete store id

/-- LocalDatabase.getAllItems of src/services/db.ts: `store.getAll()`. -/
def localGetAllItems (store : List BucketItem) : List BucketItem := store

/-- MockCloudService.addItem of src/services/cloudService.ts:
`items.unshift({ ...item, userId })` on the per-user array — an
unconditional prepend, with no lookup of an existing row. -/
def mockAddItem (userId : String) (item : BucketItem) (items : List BucketItem) :
    List BucketItem :=
  { item with userId := some userId } :: items

/-- MockCloudService.updateItem of src/services/cloudService.ts:
`items.map(i => i.id === item.id ? item : i)`. -/
def mockUpdateItem (item : BucketItem) (items : List BucketItem) : List BucketItem :=
  items.map (fun i => if i.id = item.id then item else i)

/-- MockCloudService.deleteItem of src/services/cloudService.ts:
`items.filter(i => i.id !== itemId)`. -/
def mockDeleteItem (itemId : String) (items : List BucketItem) : List BucketItem :=
  items.filter (fun i => i.id ≠ itemId)

/-- FirebaseCloudService.addItem of src/services/cloudService.ts:
`setDoc(doc(db, "bucketItems", item.id), { ...item, userId })` — a keyed
upsert of the document with the item id. -/
def fbAddItem (userId : String) (item : BucketItem) (store : List BucketItem) :
    List BucketItem :=
  tablePut store { item with userId := some userId }

/-- FirebaseCloudService.updateItem: `updateDoc(docRef, { ...item })`.
`updateDoc` rewrites every field of an existing document and rejects when
the document does not exist, hence the `Option` result. -/
def fbUpdateItem (item : BucketItem) (store : List BucketItem) :
    Option (List BucketItem) :=
  if store.any (fun it => it.id = item.id) then some (tablePut store item) else none

/-- FirebaseCloudService.deleteItem: `deleteDoc` by item id (succeeds
also when the document is absent). -/
def fbDeleteItem (itemId : String) (store : List BucketItem) : List BucketItem :=
  tableDelete store itemId

/-- Shape of the `items` field of a parsed backup document, as inspected
by the `Array.isArray(data.items)` checks of src/services/db.ts and
src/App.tsx. -/
inductive BackupItemsField where
  | array (items : List BucketItem)
  | notArray

/-- Store effect of LocalDatabase.importBackup (src/services/db.ts) on an
already parsed document: when `items` is not an array the function throws
`Invalid backup file format` before touching the store; otherwise it
clears the store and puts every imported item. -/
def importBackupStore (field : BackupItemsField) (store : List BucketItem) :
    List BucketItem × Except String (List BucketItem) :=
  match field with
  | BackupItemsField.notArray => (store, Except.error "Invalid backup file format")
  | BackupItemsField.array items => (items.foldl tablePut [], Except.ok items)

/-- The items part of `handleDataImport` (src/App.tsx):
`if (Array.isArray(data.items)) setItems(data.items)` — the in-memory
item set is replaced only when the field is an array. -/
def handleDataImportItems (field : BackupItemsField) (items : List BucketItem) :
    List BucketItem :=
  match field with
  | BackupItemsField.array imported => imported
  | BackupItemsField.notArray => items

/-- Insertion step for the `dbItems.sort((a, b) => b.createdAt - a.createdAt)`
comparator of the local load path of src/App.tsx (descending creation
time). -/
def insertByCreatedDesc (x : BucketItem) : List BucketItem → List BucketItem
  | [] => [x]
  | y :: ys => if y.createdAt ≤ x.createdAt then x :: y :: ys else y :: insertByCreatedDesc x ys

/-- Sorting by `createdAt` descending, modelling the comparator sort of
the local load path. -/
def sortByCreatedDesc (l : List BucketItem) : List BucketItem :=
  l.foldr insertByCreatedDesc []

/-- Combined state of the app together with the two persistent stores:
the IndexedDB items table and the per-user cloud collection. -/
structure FullState where
  app : AppState
  db : List BucketItem
  cloud : List BucketItem

/-- Proximity evaluation at combined-state level.  `checkProximity`
(src/App.tsx) runs `setItems` and `sendNotification` only: it issues no
`localDB.saveItem` and no cloud write, so only the in-memory `app`
component is touched. -/
noncomputable def evaluateFull (dispatchOk : String → Bool) (loc : GeoLocation)
    (fs : FullState) : FullState :=
  { fs with app := evaluateStep dispatchOk loc fs.app }

/-- The local branch of the `loadItems` data-sync effect (src/App.tsx):
read every persisted item, sort by creation time descending, and replace
the in-memory item set. -/
def loadLocal (fs : FullState) : FullState :=
  { fs with app := { fs.app with items := sortByCreatedDesc (localGetAllItems fs.db) } }

/-- Fixture: a notification dispatch oracle whose constructor always
succeeds. -/
def alwaysDispatch : String → Bool := fun _ => true

/-- Fixture: the origin coordinate used as a concrete location sample. -/
def locW : GeoLocation := ⟨0, 0⟩

/-- Fixture: a pending item at the origin, neither completed nor
notified. -/
def itemA : BucketItem :=
  { id := "a", title := "wall", description := none, targetLocation := ⟨0, 0⟩,
    completed := false, completedAt := none, notified := false,
    category := "Adventure", interest := "ASAP", createdAt := 5, userId := none }

/-- Fixture: an item that has already been notified. -/
def itemB : BucketItem :=
  { id := "b", title := "petra", description := none, targetLocation := ⟨40, 40⟩,
    completed := false, completedAt := none, notified := true,
    category := "Adventure", interest := "ASAP", createdAt := 6, userId := none }

/-- Fixture: tracking is on, one pending item, notifications granted. -/
def startState : AppState :=
  { items := [itemA], currentLocation := none, geoError := none, isTracking := true,
    permissionGranted := true, editingItem := none, alerts := [], displayed := [] }

/-- Fixture: tracking has been stopped and no items are loaded. -/
def stoppedState : AppState :=
  { items := [], currentLocation := none, geoError := none, isTracking := false,
    permissionGranted := false, editingItem := none, alerts := [], displayed := [] }

/-- Fixture: a geolocation collaborator that always reports permission
denied. -/
def geoDenied : LocOptions → GeoResult := fun _ => GeoResult.failure 1

/-- Fixture: a geolocation collaborator whose high-accuracy request times
out and whose low-accuracy request succeeds. -/
def geoTimeoutLowOk : LocOptions → GeoResult := fun o =>
  if o.enableHighAccuracy then GeoResult.failure 3 else GeoResult.success ⟨3, 4⟩

end JustKick

namespace JustKick

theorem checkProximityItem_skip (loc : GeoLocation) (item : BucketItem)
    (h : item.completed = true ∨ item.notified = true) :
    checkProximityItem loc item = (item, none) := by
  have hb : (item.completed || item.notified) = true := by
    rcases h with h | h <;> simp [h]
  simp [checkProximityItem, hb]

theorem checkProximityItem_latch (loc : GeoLocation) (item : BucketItem)
    (hc : item.completed = false) (hn : item.notified = false)
    (hd : calculateDistance loc item.targetLocation < PROXIMITY_THRESHOLD) :
    checkProximityItem loc item = ({ item with notified := true }, some item.title) := by
  simp [checkProximityItem, hc, hn, hd]

theorem checkProximityItem_far (loc : GeoLocation) (item : BucketItem)
    (hd : ¬ calculateDistance loc item.targetLocation < PROXIMITY_THRESHOLD) :
    checkProximityItem loc item = (item, none) := by
  by_cases hb : (item.completed || item.notified) = true
  · simp [checkProximityItem, hb]
  · simp [checkProximityItem, hb, hd]

theorem checkProximityItem_fst_of_snd_none (loc : GeoLocation) (item : BucketItem)
    (h : (checkProximityItem loc item).2 = none) :
    (checkProximityItem loc item).1 = item := by
  by_cases hc : item.completed = true ∨ item.notified = true
  · rw [checkProximityItem_skip loc item hc]
  · push_neg at hc
    have hc1 : item.completed = false := by simpa using hc.1
    have hn1 : item.notified = false := by simpa using hc.2
    by_cases hd : calculateDistance loc item.targetLocation < PROXIMITY_THRESHOLD
    · rw [checkProximityItem_latch loc item hc1 hn1 hd] at h
      simp at h
    · rw [checkProximityItem_far loc item hd]

theorem map_fst_of_no_alert (loc : GeoLocation) :
    ∀ items : List BucketItem,
      ((items.map (checkProximityItem loc)).any fun r => r.2.isSome) = false →
      items.map (fun it => (checkProximityItem loc it).1) = items
  | [], _ => rfl
  | it :: its, h => by
    simp only [List.map_cons, List.any_cons, Bool.or_eq_false_iff] at h
    have hnone : (checkProximityItem loc it).2 = none := by
      rcases h with ⟨h1, _⟩
      exact Option.not_isSome_iff_eq_none.mp (by simp [h1])
    simp [checkProximityItem_fst_of_snd_none loc it hnone,
      map_fst_of_no_alert loc its h.2]

theorem checkProximity_fst (loc : GeoLocation) (items : List BucketItem) :
    (checkProximity loc items).1 = items.map (fun it => (checkProximityItem loc it).1) := by
  simp only [checkProximity]
  by_cases h : ((items.map (checkProximityItem loc)).any fun r => r.2.isSome) = true
  · simp [h, List.map_map, Function.comp]
  · have h2 : ((items.map (checkProximityItem loc)).any fun r => r.2.isSome) = false := by
      simpa using h
    simp only [h2, Bool.false_eq_true, if_false]
    exact (map_fst_of_no_alert loc items h2).symm

theorem checkProximity_snd (loc : GeoLocation) (items : List BucketItem) :
    (checkProximity loc items).2 = (items.map (checkProximityItem loc)).filterMap Prod.snd :=
  rfl

theorem checkProximity_alerts_eq (loc : GeoLocation) (items : List BucketItem) :
    (checkProximity loc items).2 =
      (items.filter (qualifiesForAlert loc)).map (fun it => it.title) := by
  rw [checkProximity_snd]
  induction items with
  | nil => rfl
  | cons it its ih =>
    by_cases hc : it.completed = true ∨ it.notified = true
    · have hstep := checkProximityItem_skip loc it hc
      have hq : qualifiesForAlert loc it = false := by
        rcases hc with h | h <;> simp [qualifiesForAlert, h]
      simp [hstep, hq, List.filter_cons, ih]
    · push_neg at hc
      have hc1 : it.completed = false := by simpa using hc.1
      have hn1 : it.notified = false := by simpa using hc.2
      by_cases hd : calculateDistance loc it.targetLocation < PROXIMITY_THRESHOLD
      · have hstep := checkProximityItem_latch loc it hc1 hn1 hd
        have hq : qualifiesForAlert loc it = true := by
          simp [qualifiesForAlert, hc1, hn1, hd]
        simp [hstep, hq, List.filter_cons, ih]
      · have hstep := checkProximityItem_far loc it hd
        have hq : qualifiesForAlert loc it = false := by
          simp [qualifiesForAlert, hc1, hn1, hd]
        simp [hstep, hq, List.filter_cons, ih]

theorem checkProximityItem_idem (loc : GeoLocation) (item : BucketItem) :
    (checkProximityItem loc ((checkProximityItem loc item).1)).2 = none := by
  by_cases hc : item.completed = true ∨ item.notified = true
  · rw [checkProximityItem_skip loc item hc, checkProximityItem_skip loc item hc]
  · push_neg at hc
    have hc1 : item.completed = false := by simpa using hc.1
    have hn1 : item.notified = false := by simpa using hc.2
    by_cases hd : calculateDistance loc item.targetLocation < PROXIMITY_THRESHOLD
    · rw [checkProximityItem_latch loc item hc1 hn1 hd]
      have : checkProximityItem loc { item with notified := true } =
          ({ item with notified := true }, none) :=
        checkProximityItem_skip loc _ (Or.inr rfl)
      simp [this]
    · rw [checkProximityItem_far loc item hd]
      simp [checkProximityItem_far loc item hd]

theorem atan2_zero_one : atan2 0 1 = 0 := by
  have h : Complex.mk 1 0 = (1 : ℂ) := by
    apply Complex.ext <;> simp
  simp [atan2, h]

theorem calculateDistance_self (a : GeoLocation) : calculateDistance a a = 0 := by
  simp [calculateDistance, sub_self, atan2_zero_one]

theorem calculateDistance_comm (a b : GeoLocation) :
    calculateDistance a b = calculateDistance b a := by
  have hsin : ∀ x y : ℝ,
      Real.sin ((x - y) * Real.pi / 180 / 2) * Real.sin ((x - y) * Real.pi / 180 / 2) =
      Real.sin ((y - x) * Real.pi / 180 / 2) * Real.sin ((y - x) * Real.pi / 180 / 2) := by
    intro x y
    have hneg : (y - x) * Real.pi / 180 / 2 = -((x - y) * Real.pi / 180 / 2) := by ring
    rw [hneg, Real.sin_neg, neg_mul_neg]
  have ha : Real.sin ((b.lat - a.lat) * Real.pi / 180 / 2) *
        Real.sin ((b.lat - a.lat) * Real.pi / 180 / 2) +
      Real.cos (a.lat * Real.pi / 180) * Real.cos (b.lat * Real.pi / 180) *
        Real.sin ((b.lng - a.lng) * Real.pi / 180 / 2) *
        Real.sin ((b.lng - a.lng) * Real.pi / 180 / 2) =
      Real.sin ((a.lat - b.lat) * Real.pi / 180 / 2) *
        Real.sin ((a.lat - b.lat) * Real.pi / 180 / 2) +
      Real.cos (b.lat * Real.pi / 180) * Real.cos (a.lat * Real.pi / 180) *
        Real.sin ((a.lng - b.lng) * Real.pi / 180 / 2) *
        Real.sin ((a.lng - b.lng) * Real.pi / 180 / 2) := by
    linear_combination hsin b.lat a.lat +
      (Real.cos (a.lat * Real.pi / 180) * Real.cos (b.lat * Real.pi / 180)) * hsin b.lng a.lng
  simp only [calculateDistance]
  rw [ha]

theorem handleError_not_retry (d : String → Bool) (geo : LocOptions → GeoResult)
    (code : Nat) (isLowAccuracy : Bool) (s : AppState)
    (h : ¬ (code = 3 ∧ isLowAccuracy = false)) :
    handleError d geo code isLowAccuracy s = (surfaceGeoError code s, []) := by
  unfold handleError
  rw [dif_neg h]

theorem handleError_high_timeout (d : String → Bool) (geo : LocOptions → GeoResult)
    (s : AppState) :
    handleError d geo 3 false s =
      match geo lowAccuracyOptions with
      | GeoResult.success pos => (handleSuccess d pos s, [lowAccuracyOptions])
      | GeoResult.failure c => (surfaceGeoError c s, [lowAccuracyOptions]) := by
  have hcond : (3 = 3 ∧ false = false) := ⟨rfl, rfl⟩
  unfold handleError
  rw [dif_pos hcond]
  cases hl : geo lowAccuracyOptions with
  | success pos => rfl
  | failure c =>
    simp [handleError_not_retry d geo c true s (by simp)]

theorem updateLocation_high_failure (d : String → Bool) (geo : LocOptions → GeoResult)
    (s : AppState) (code : Nat) (h : geo highAccuracyOptions = GeoResult.failure code) :
    updateLocation d geo s =
      ((handleError d geo code false s).1,
        highAccuracyOptions :: (handleError d geo code false s).2) := by
  unfold updateLocation
  rw [h]

theorem updateLocation_high_success (d : String → Bool) (geo : LocOptions → GeoResult)
    (s : AppState) (pos : GeoLocation) (h : geo highAccuracyOptions = GeoResult.success pos) :
    updateLocation d geo s = (handleSuccess d pos s, [highAccuracyOptions]) := by
  unfold updateLocation
  rw [h]

/-- C9: for every coordinate pair a, the Haversine distance from a to
itself is 0, and for every pair a, b the distance is symmetric. -/
theorem distance_zero_self_and_symmetric :
    (∀ a : GeoLocation, calculateDistance a a = 0)
    ∧ (∀ a b : GeoLocation, calculateDistance a b = calculateDistance b a) :=
  ⟨calculateDistance_self, calculateDistance_comm⟩

/-- C10: a proximity evaluation in local mode touches only the in-memory
item set: the persistent local store and the cloud collection are
unchanged, so reading the store back (as a reload does) yields the same
persisted items, with their pre-latch notified values. -/
theorem evaluation_writes_no_store (d : String → Bool) (loc : GeoLocation) (fs : FullState) :
    (evaluateFull d loc fs).db = fs.db
    ∧ (evaluateFull d loc fs).cloud = fs.cloud
    ∧ localGetAllItems (evaluateFull d loc fs).db = localGetAllItems fs.db
    ∧ (loadLocal (evaluateFull d loc fs)).app.items = (loadLocal fs).app.items :=
  ⟨rfl, rfl, rfl, rfl⟩

/-- C7: importing a backup document whose items field is not an array
throws the format error before the store is touched, leaving both the
persisted item set and the in-memory item set completely unchanged. -/
theorem import_not_array_rejected_wholesale (store items : List BucketItem) :
    importBackupStore BackupItemsField.notArray store =
      (store, Except.error "Invalid backup file format")
    ∧ handleDataImportItems BackupItemsField.notArray items = items :=
  ⟨rfl, rfl⟩

/-- C3: the notified latch is applied to the item set atomically with the
alert dispatch of the same evaluation: the resulting item set is exactly
the latch result and does not depend on whether any notification
constructor succeeds (a dispatch failure rolls nothing back), and a
second evaluation of the resulting item set at the same sample queues no
alert, so alert delivery per item is at-most-once. -/
theorem latch_committed_atomically_with_dispatch :
    (∀ (d1 d2 : String → Bool) (loc : GeoLocation) (s : AppState),
      (evaluateStep d1 loc s).items = (evaluateStep d2 loc s).items)
    ∧ (∀ (d : String → Bool) (loc : GeoLocation) (s : AppState),
      (evaluateStep d loc s).items = (checkProximity loc s.items).1)
    ∧ (∀ (loc : GeoLocation) (items : List BucketItem),
      (checkProximity loc (checkProximity loc items).1).2 = []) := by
  refine ⟨fun d1 d2 loc s => rfl, fun d loc s => rfl, fun loc items => ?_⟩
  rw [checkProximity_snd, checkProximity_fst, List.map_map]
  apply List.filterMap_eq_nil_iff.mpr
  intro r hr
  rcases List.mem_map.mp hr with ⟨it, hit, hr2⟩
  rw [hr2.symm]
  exact checkProximityItem_idem loc it

/-- C6: a permission-denied sample failure turns tracking off, while
position-unavailable and timeout failures leave the tracking flag as it
was; every surfaced failure lands in the single dismissible geo-error
slot, a successful sample clears the slot, and dismissing clears it. -/
theorem geo_failure_taxonomy (d : String → Bool) (s : AppState) (pos : GeoLocation) :
    ((surfaceGeoError 1 s).isTracking = false
      ∧ (surfaceGeoError 1 s).geoError = some (errorMessage 1))
    ∧ ((surfaceGeoError 2 s).isTracking = s.isTracking
      ∧ (surfaceGeoError 2 s).geoError = some (errorMessage 2))
    ∧ ((surfaceGeoError 3 s).isTracking = s.isTracking
      ∧ (surfaceGeoError 3 s).geoError = some (errorMessage 3))
    ∧ (updateLocation d (fun _ => GeoResult.failure 1) s).1 = surfaceGeoError 1 s
    ∧ (updateLocation d (fun _ => GeoResult.failure 2) s).1 = surfaceGeoError 2 s
    ∧ (updateLocation d (fun _ => GeoResult.failure 3) s).1 = surfaceGeoError 3 s
    ∧ (handleSuccess d pos s).geoError = none
    ∧ (dismissGeoError s).geoError = none := by
  refine ⟨⟨rfl, rfl⟩, ⟨rfl, rfl⟩, ⟨rfl, rfl⟩, ?_, ?_, ?_, rfl, rfl⟩
  · rw [updateLocation_high_failure d _ s 1 rfl,
      handleError_not_retry d _ 1 false s (by simp)]
  · rw [updateLocation_high_failure d _ s 2 rfl,
      handleError_not_retry d _ 2 false s (by simp)]
  · rw [updateLocation_high_failure d _ s 3 rfl, handleError_high_timeout d _ s]

/-- C1: an item that is not completed, not yet notified, and strictly
within 2000 m of the sample is returned by the evaluation with notified
set to true; the queued alerts are exactly one per qualifying item, each
carrying that item title; and every item failing the completed/notified
preconditions passes through unchanged. -/
theorem proximity_latch_and_alert (loc : GeoLocation) (items : List BucketItem)
    (k : Nat) (item : BucketItem) (hget : items.get? k = some item)
    (hc : item.completed = false) (hn : item.notified = false)
    (hd : calculateDistance loc item.targetLocation < PROXIMITY_THRESHOLD) :
    (checkProximity loc items).1.get? k = some { item with notified := true }
    ∧ (checkProximity loc items).2 =
        (items.filter (qualifiesForAlert loc)).map (fun it => it.title)
    ∧ (∀ (j : Nat) (itm : BucketItem), items.get? j = some itm →
        itm.completed = true ∨ itm.notified = true →
        (checkProximity loc items).1.get? j = some itm) := by
  refine ⟨?_, checkProximity_alerts_eq loc items, ?_⟩
  · rw [checkProximity_fst, List.get?_map, hget]
    simp [checkProximityItem_latch loc item hc hn hd]
  · intro j itm hj hcase
    rw [checkProximity_fst, List.get?_map, hj]
    simp [checkProximityItem_skip loc itm hcase]

theorem proximity_latch_and_alert_witness :
    (checkProximity locW [itemA, itemB]).1.get? 0 = some { itemA with notified := true }
    ∧ (checkProximity locW [itemA, itemB]).1.get? 1 = some itemB := by
  have h := proximity_latch_and_alert locW [itemA, itemB] 0 itemA rfl rfl rfl
    (by rw [show itemA.targetLocation = locW from rfl, calculateDistance_self]
        norm_num [PROXIMITY_THRESHOLD])
  exact ⟨h.1, h.2.2 1 itemB rfl (Or.inr rfl)⟩

/-- C4 counterexample: the claim that an in-flight sample resolving after
stop is discarded is false: with tracking stopped, the success callback
still applies in full (here it changes the state, storing the stale fix
as the current location). -/
theorem stale_success_not_discarded :
    stoppedState.isTracking = false
    ∧ handleSuccess alwaysDispatch ⟨1, 2⟩ stoppedState ≠ stoppedState := by
  refine ⟨rfl, fun h => ?_⟩
  have h2 := congrArg AppState.currentLocation h
  simp [handleSuccess, evaluateStep, stoppedState] at h2

/-- C4 amended: stopping tracking cancels the periodic timer, so a tick
in the stopped state runs no evaluator invocation and issues no sample
request; but the result of a sample request already in flight is applied
in full when it resolves after the stop — the current location is updated
and the proximity evaluator runs — rather than being discarded. -/
theorem stop_cancels_timer_not_inflight (d : String → Bool) (geo : LocOptions → GeoResult)
    (s : AppState) (h : s.isTracking = false) :
    pollTick d geo s = (s, [])
    ∧ (∀ pos : GeoLocation, (handleSuccess d pos s).currentLocation = some pos
        ∧ (handleSuccess d pos s).items = (checkProximity pos s.items).1) := by
  exact ⟨by simp [pollTick, h], fun pos => ⟨rfl, rfl⟩⟩

theorem stop_cancels_timer_not_inflight_witness :
    stoppedState.isTracking = false
    ∧ pollTick alwaysDispatch geoDenied stoppedState = (stoppedState, [])
    ∧ (handleSuccess alwaysDispatch ⟨1, 2⟩ stoppedState).currentLocation = some ⟨1, 2⟩ := by
  have h := stop_cancels_timer_not_inflight alwaysDispatch geoDenied stoppedState rfl
  exact ⟨rfl, h.1, (h.2 ⟨1, 2⟩).1⟩

/-- C5: when the high-accuracy request fails with a timeout (code 3),
exactly one further request is issued — the low-accuracy one with
unbounded cache age — and never another; if that fallback succeeds, no
error is surfaced for the tick and the fallback fix becomes the current
location; if it fails, only then is the failure surfaced. -/
theorem high_timeout_single_low_retry (d : String → Bool) (geo : LocOptions → GeoResult)
    (s : AppState) (hhigh : geo highAccuracyOptions = GeoResult.failure 3) :
    (updateLocation d geo s).2 = [highAccuracyOptions, lowAccuracyOptions]
    ∧ lowAccuracyOptions.enableHighAccuracy = false
    ∧ lowAccuracyOptions.maximumAge = MaximumAge.unbounded
    ∧ (∀ pos : GeoLocation, geo lowAccuracyOptions = GeoResult.success pos →
        (updateLocation d geo s).1.geoError = none
        ∧ (updateLocation d geo s).1.currentLocation = some pos)
    ∧ (∀ c : Nat, geo lowAccuracyOptions = GeoResult.failure c →
        (updateLocation d geo s).1 = surfaceGeoError c s) := by
  rw [updateLocation_high_failure d geo s 3 hhigh, handleError_high_timeout d geo s]
  refine ⟨?_, rfl, rfl, ?_, ?_⟩
  · cases hl : geo lowAccuracyOptions with
    | success pos => simp [hl]
    | failure c => simp [hl]
  · intro pos hl
    rw [hl]
    exact ⟨rfl, rfl⟩
  · intro c hl
    rw [hl]

theorem high_timeout_single_low_retry_witness :
    geoTimeoutLowOk highAccuracyOptions = GeoResult.failure 3
    ∧ (updateLocation alwaysDispatch geoTimeoutLowOk startState).2 =
        [highAccuracyOptions, lowAccuracyOptions]
    ∧ (updateLocation alwaysDispatch geoTimeoutLowOk startState).1.geoError = none
    ∧ (updateLocation alwaysDispatch geoTimeoutLowOk startState).1.currentLocation =
        some ⟨3, 4⟩ := by
  have h := high_timeout_single_low_retry alwaysDispatch geoTimeoutLowOk startState rfl
  have h4 := h.2.2.2.1 ⟨3, 4⟩ rfl
  exact ⟨rfl, h.1, h4.1, h4.2⟩

theorem tablePut_of_any (store : List BucketItem) (item : BucketItem)
    (h : store.any (fun it => it.id = item.id) = true) :
    tablePut store item = store.map (fun it => if it.id = item.id then item else it) := by
  unfold tablePut
  rw [if_pos h]

theorem tablePut_of_not_any (store : List BucketItem) (item : BucketItem)
    (h : store.any (fun it => it.id = item.id) = false) :
    tablePut store item = store ++ [item] := by
  unfold tablePut
  rw [if_neg (by simp [h])]

theorem map_replace_idem (item : BucketItem) (l : List BucketItem) :
    (l.map (fun it => if it.id = item.id then item else it)).map
        (fun it => if it.id = item.id then item else it) =
      l.map (fun it => if it.id = item.id then item else it) := by
  induction l with
  | nil => rfl
  | cons x xs ih =>
    by_cases h : x.id = item.id <;> simp [h, ih]

theorem map_replace_of_no_match (item : BucketItem) :
    ∀ l : List BucketItem, l.any (fun it => it.id = item.id) = false →
      l.map (fun it => if it.id = item.id then item else it) = l
  | [], _ => rfl
  | x :: xs, h => by
    simp only [List.any_cons, Bool.or_eq_false_iff] at h
    have hx : ¬ x.id = item.id := by simpa using h.1
    simp [hx, map_replace_of_no_match item xs h.2]

theorem tablePut_any (store : List BucketItem) (item : BucketItem) :
    (tablePut store item).any (fun it => it.id = item.id) = true := by
  by_cases h : store.any (fun it => it.id = item.id) = true
  · rw [tablePut_of_any store item h]
    rcases List.any_eq_true.mp h with ⟨x, hx, hpx⟩
    apply List.any_eq_true.mpr
    refine ⟨if x.id = item.id then item else x, List.mem_map_of_mem _ hx, ?_⟩
    have hxid : x.id = item.id := by simpa using hpx
    simp [hxid]
  · have hf : store.any (fun it => it.id = item.id) = false := by simpa using h
    rw [tablePut_of_not_any store item hf]
    simp [List.any_append]

theorem tablePut_idem (store : List BucketItem) (item : BucketItem) :
    tablePut (tablePut store item) item = tablePut store item := by
  rw [tablePut_of_any (tablePut store item) item (tablePut_any store item)]
  by_cases h : store.any (fun it => it.id = item.id) = true
  · rw [tablePut_of_any store item h]
    exact map_replace_idem item store
  · have hf : store.any (fun it => it.id = item.id) = false := by simpa using h
    rw [tablePut_of_not_any store item hf, List.map_append,
      map_replace_of_no_match item store hf]
    simp

theorem tableDelete_absent (id2 : String) :
    ∀ l : List BucketItem, l.any (fun it => it.id = id2) = false →
      tableDelete l id2 = l
  | [], _ => rfl
  | x :: xs, h => by
    simp only [List.any_cons, Bool.or_eq_false_iff] at h
    have hx : ¬ x.id = id2 := by simpa using h.1
    have htail := tableDelete_absent id2 xs h.2
    simp only [tableDelete] at htail ⊢
    rw [List.filter_cons, if_pos (by simp [hx]), htail]

/-- C8 counterexample: adding the same item twice through the mock cloud
backend is not idempotent — `addItem` prepends unconditionally, so the
second add duplicates the entry instead of reproducing the single-add
state. -/
theorem mock_add_twice_not_idempotent :
    mockAddItem "u" itemA (mockAddItem "u" itemA []) ≠ mockAddItem "u" itemA [] := by
  intro h
  have hlen := congrArg List.length h
  simp [mockAddItem] at hlen

/-- C8 amended: upsert-level idempotence and delete-of-absent-id no-op
hold for the local IndexedDB backend (put/delete), for the Firebase
backend (set-by-id, update of an existing document, delete), and for the
mock cloud backend's update and delete; but not for the mock cloud
backend's add, which prepends unconditionally and therefore duplicates an
item added twice with the same id. -/
theorem store_backend_ops_idempotent (store items : List BucketItem) (item : BucketItem)
    (uid id2 : String) (habsent : store.any (fun it => it.id = id2) = false) :
    localSaveItem (localSaveItem store item) item = localSaveItem store item
    ∧ localDeleteItem store id2 = store
    ∧ mockUpdateItem item (mockUpdateItem item items) = mockUpdateItem item items
    ∧ mockDeleteItem id2 store = store
    ∧ fbAddItem uid item (fbAddItem uid item store) = fbAddItem uid item store
    ∧ fbDeleteItem id2 store = store
    ∧ (∀ store2 : List BucketItem, fbUpdateItem item store = some store2 →
        fbUpdateItem item store2 = some store2) := by
  refine ⟨tablePut_idem store item, tableDelete_absent id2 store habsent,
    map_replace_idem item items, tableDelete_absent id2 store habsent,
    tablePut_idem store _, tableDelete_absent id2 store habsent, ?_⟩
  intro store2 h
  unfold fbUpdateItem at h ⊢
  by_cases hc : store.any (fun it => it.id = item.id) = true
  · rw [if_pos hc] at h
    have hs2 : store2 = tablePut store item := by
      exact (Option.some.injEq _ _ ▸ h).symm
    subst hs2
    rw [if_pos (tablePut_any store item), tablePut_idem store item]
  · rw [if_neg hc] at h
    exact absurd h (by simp)

theorem store_backend_ops_idempotent_witness :
    ([itemA].any (fun it => it.id = "z") = false)
    ∧ localDeleteItem [itemA] "z" = [itemA]
    ∧ localSaveItem (localSaveItem [itemA] itemA) itemA = localSaveItem [itemA] itemA := by
  have habsent : ([itemA].any (fun it => it.id = "z") = false) := by simp [itemA]
  have h := store_backend_ops_idempotent [itemA] [] itemA "u" "z" habsent
  exact ⟨habsent, h.2.1, h.1⟩

/-- C2: the notified one-way latch is broken by the stale-edit path of
`handleSaveItem`.  Concretely: the edit modal is opened for the pending
item (capturing `editingItem`), a proximity evaluation then latches the
item (notified becomes true and an alert fires), and saving the edit
spreads the stale captured copy back, resetting notified to false with no
delete or recreate — after which the item can alert again. -/
theorem notified_latch_lost_on_stale_edit :
    ((applyEvents alwaysDispatch startState
        [AppEvent.initiateEdit "a", AppEvent.evaluate locW]).items.map
          (fun i => i.notified) = [true])
    ∧ ((applyEvents alwaysDispatch startState
        [AppEvent.initiateEdit "a", AppEvent.evaluate locW,
          AppEvent.saveEdit "wall" "Adventure" "ASAP" locW none]).items.map
          (fun i => i.notified) = [false]) := by
  have hd : calculateDistance locW itemA.targetLocation < PROXIMITY_THRESHOLD := by
    rw [show itemA.targetLocation = locW from rfl, calculateDistance_self]
    norm_num [PROXIMITY_THRESHOLD]
  have hlatch := checkProximityItem_latch locW itemA rfl rfl hd
  have hcp : checkProximity locW [itemA] =
      ([{ itemA with notified := true }], [itemA.title]) := by
    simp [checkProximity, hlatch]
  have hfind : ([itemA].find? (fun i => i.id = "a")) = some itemA := by
    simp [itemA]
  have hid : itemA.id = "a" := rfl
  have hnot : itemA.notified = false := rfl
  constructor
  · simp [applyEvents, applyEvent, evaluateStep, hfind, hcp, startState]
  · simp [applyEvents, applyEvent, evaluateStep, hfind, hcp, startState, hid, hnot]

end JustKick
